import Mathlib

/-!
Verification development for the price-monitoring engine of `server.js`
(shopper-price).  Prices are modelled as rationals (`ℚ`), timestamps as
`Nat` ticks, and the asynchronous sweep as a pure fold over the per-item
environments (fetch results, persistence faults, user lookup, delivery
outcome) that the outside world supplies to one sweep.
-/

namespace PriceTracker

/-- A user record (userSchema, lines 28-34): only the fields the
monitoring engine reads are modelled. -/
structure User where
  email : String
  notifications : Bool
deriving DecidableEq

/-- A tracked product (productSchema, lines 37-53).  `priceHistory`
stores the observation prices in insertion (time) order; each entry's
date defaults to its insertion time, so list order is time order.
`targetPrice` is `none` when the field is absent (JS `undefined`). -/
structure TrackedItem where
  userId : Nat
  url : String
  title : String
  currentPrice : ℚ
  targetPrice : Option ℚ
  image : String
  store : String
  priceHistory : List ℚ
  isActive : Bool
  createdAt : Nat
  lastChecked : Nat
deriving DecidableEq

/-- The structured value returned by `scrapePrice` on a completed fetch
(lines 162-167).  `price = none` covers both the JS `null` (empty
selector text) and a `NaN` parse, which behave identically at every
use site (both are falsy). -/
structure ExtractionResult where
  price : Option ℚ
  title : String
  image : String
  store : String
deriving DecidableEq

/-- The raw text the cheerio selectors of one store strategy yield from
the fetched document: primary and secondary price selector text, title
text and image attribute.  This abstracts the HTML document itself. -/
structure SelectorTexts where
  pricePrimary : String
  priceSecondary : String
  title : String
  image : String
deriving DecidableEq

/-- `.replace(/[^\d.]/g, '')` (lines 120-156): keep only ASCII digits
and the decimal point. -/
def normalizePriceText (s : String) : String :=
  String.mk (s.data.filter (fun c => c.isDigit || c == '.'))

/-- Value of a list of decimal digit characters. -/
def digitsToNat (cs : List Char) : Nat :=
  cs.foldl (fun acc c => 10 * acc + (c.toNat - 48)) 0

/-- The syntactic phase of JS `parseFloat` on the digit/dot strings
produced by `normalizePriceText`: a longest prefix `digits [ '.' digits ]`
is read off as (integer digits value, fraction digits value, fraction
length).  No valid prefix (empty string, or a leading dot followed by
no digit) is a `NaN` parse, modelled as `none`. -/
def parseParts (s : String) : Option (Nat × Nat × Nat) :=
  let cs := s.data
  let intPart := cs.takeWhile Char.isDigit
  let rest := cs.dropWhile Char.isDigit
  match rest with
  | '.' :: rest2 =>
    let fracPart := rest2.takeWhile Char.isDigit
    if intPart.isEmpty && fracPart.isEmpty then none
    else some (digitsToNat intPart, digitsToNat fracPart, fracPart.length)
  | _ =>
    if intPart.isEmpty then none
    else some (digitsToNat intPart, 0, 0)

/-- Numeric value of a parse: integer part plus fraction digits scaled
by their decimal length. -/
def ratOfParts : Nat × Nat × Nat → ℚ
  | (i, f, k) => (i : ℚ) + (f : ℚ) / (10 : ℚ) ^ k

/-- JS `parseFloat` restricted to the alphabet it is actually fed in
`scrapePrice` (digit/dot strings produced by `normalizePriceText`). -/
def parseFloatStripped (s : String) : Option ℚ :=
  (parseParts s).map ratOfParts

/-- JS `a || b` on strings: the empty string is falsy (lines 120-148). -/
def firstNonEmpty (a b : String) : String :=
  if a.isEmpty then b else a

/-- Does `s` start with `pat`? -/
def startsWithChars : List Char → List Char → Bool
  | _, [] => true
  | [], _ :: _ => false
  | c :: cs, p :: ps => (c == p) && startsWithChars cs ps

/-- Does `s` contain `pat` as a contiguous run? -/
def containsChars (s pat : List Char) : Bool :=
  match s with
  | [] => pat.isEmpty
  | c :: cs => startsWithChars (c :: cs) pat || containsChars cs pat

/-- JS `url.includes(pat)`. -/
def urlHas (url pat : String) : Bool :=
  containsChars url.data pat.data

/-- The URL classifier of `scrapePrice` (lines 119-160): host substring
match, first match wins; unmatched URLs get no store strategy. -/
def classifyStore (url : String) : Option String :=
  if urlHas url "amazon." then some "Amazon"
  else if urlHas url "ebay." then some "eBay"
  else if urlHas url "walmart." then some "Walmart"
  else if urlHas url "bestbuy." then some "Best Buy"
  else if urlHas url "target." then some "Target"
  else none

/-- `scrapePrice` (lines 103-173).  `fetchOk = false` is a thrown
axios/network error: the catch at line 169 returns `null`, modelled as
`none`.  On a completed fetch each recognized store strips its primary
selector text, falling back on its secondary one (Target, line 156, has
a single selector); an unrecognized store leaves price, title and image
at their initial empty/null values.  The final object applies the
defaults of lines 162-167; `price ? parseFloat(price) : null` maps an
empty strip result to `null`, and a `NaN` parse is likewise falsy at
every use site, so both are `none` here. -/
def scrapePriceModel (url : String) (doc : SelectorTexts) (fetchOk : Bool) :
    Option ExtractionResult :=
  if fetchOk = false then none
  else
    match classifyStore url with
    | none => some { price := none, title := "Unknown Product"
                   , image := "", store := "Unknown Store" }
    | some st =>
      let priceStr :=
        if st = "Target" then normalizePriceText doc.pricePrimary
        else firstNonEmpty (normalizePriceText doc.pricePrimary)
          (normalizePriceText doc.priceSecondary)
      some { price := if priceStr.isEmpty then none else parseFloatStripped priceStr
           , title := if doc.title.trim.isEmpty then "Unknown Product" else doc.title.trim
           , image := doc.image
           , store := st }

/-- JS `list.slice(-n)`: the `n` most recent entries (all of them when
the list is shorter). -/
def sliceLast (n : Nat) (l : List ℚ) : List ℚ :=
  l.drop (l.length - n)

/-- The history update of one successful observation (lines 418-423):
push the new price, then keep only the last 30 entries. -/
def appendCapped (h : List ℚ) (p : ℚ) : List ℚ :=
  let h2 := h ++ [p]
  if 30 < h2.length then h2.drop (h2.length - 30) else h2

/-- The notification condition of line 428:
`product.targetPrice && newPrice <= product.targetPrice && newPrice < oldPrice`.
An absent target is falsy, and so is a target of `0`. -/
def shouldNotifyCode (target : Option ℚ) (newPrice oldPrice : ℚ) : Bool :=
  match target with
  | none => false
  | some t => (t != 0) && (newPrice ≤ t) && (newPrice < oldPrice)

/-- JS `Math.round`: round half toward positive infinity. -/
def jsRound (x : ℚ) : ℤ := ⌊x + 1 / 2⌋

/-- The price-drop email body built by `sendNotification`
(lines 179-198), reduced to its numeric content.  The template of
line 192 interpolates the savings amount and the percentage
unconditionally, so `percentOff` is always `some`.  Rational division
by zero yields `0` here whereas IEEE yields an infinity, so only the
`some`-ness of `percentOff`, not its value, is meaningful when
`oldPrice = 0`; the value is faithful for `oldPrice ≠ 0`. -/
structure MailBody where
  title : String
  oldPrice : ℚ
  newPrice : ℚ
  savings : ℚ
  percentOff : Option ℤ
deriving DecidableEq

/-- Build the mail body of lines 179-198 for a product title and the
old and new price. -/
def buildMailBody (title : String) (oldPrice newPrice : ℚ) : MailBody :=
  { title := title
  , oldPrice := oldPrice
  , newPrice := newPrice
  , savings := oldPrice - newPrice
  , percentOff := some (jsRound ((oldPrice - newPrice) / oldPrice * 100)) }

/-- The environment one sweep iteration observes for one item:
the result of `scrapePrice` (`none` on a thrown fetch), whether
`product.save()` throws (a persistence failure), the result of
`User.findById`, and whether `transporter.sendMail` succeeds. -/
structure ItemEnv where
  scraped : Option ExtractionResult
  saveThrows : Bool
  user : Option User
  sendOk : Bool
deriving DecidableEq

/-- What one iteration of the `checkPrices` loop produces for its item:
the item's persisted record afterwards, whether the line-428
notification condition fired and was reached, whether an email was
actually handed to the transport, and whether the line-439 pacing delay
executed. -/
structure ItemResult where
  item : TrackedItem
  notifyFired : Bool
  emailSent : Bool
  delayed : Bool
deriving DecidableEq

/-- One iteration of the `for` loop of `checkPrices` (lines 407-444).
A falsy scrape result or falsy price (null, `NaN`, or `0`) skips the
update block; the pacing delay of line 439 still runs because
`scrapePrice` catches its own errors.  A throwing `product.save()`
jumps to the catch of line 441, so nothing is persisted, no
notification is attempted, and the delay is skipped.  Otherwise the
item is updated (lines 416-425) and, when the line-428 condition holds,
the user is looked up and `sendNotification` is invoked, which itself
returns early when the user's `notifications` flag is off and swallows
transport errors (lines 177, 200-205). -/
def checkItem (now : Nat) (env : ItemEnv) (product : TrackedItem) : ItemResult :=
  match env.scraped with
  | none => ⟨product, false, false, true⟩
  | some sd =>
    match sd.price with
    | none => ⟨product, false, false, true⟩
    | some newPrice =>
      if newPrice = 0 then ⟨product, false, false, true⟩
      else if env.saveThrows then ⟨product, false, false, false⟩
      else
        let oldPrice := product.currentPrice
        let updated := { product with
          currentPrice := newPrice
          , lastChecked := now
          , priceHistory := appendCapped product.priceHistory newPrice }
        let fires := shouldNotifyCode product.targetPrice newPrice oldPrice
        let sent := fires && (match env.user with
          | none => false
          | some u => u.notifications && env.sendOk)
        ⟨updated, fires, sent, true⟩

/-- The sequential sweep of `checkPrices` over the active items
(lines 405-444): every item is processed in order; the per-item
try/catch guarantees the loop never aborts early. -/
def runSweep (now : Nat) (envs : List ItemEnv) (products : List TrackedItem) :
    List ItemResult :=
  List.zipWith (checkItem now) envs products

/-- Outcome of `POST /api/products` (lines 253-279). -/
inductive RegisterResult where
  | error (msg : String)
  | created (item : TrackedItem)
deriving DecidableEq

/-- The registration handler (lines 253-279): one synchronous scrape;
a falsy result or falsy price (`!scrapedData || !scrapedData.price`)
returns a 400 error before any record is constructed; otherwise the
new product is built with the scraped price as current price and as
the single seeded history entry (lines 263-272). -/
def registerItem (userId : Nat) (url : String) (targetPrice : Option ℚ)
    (now : Nat) (scraped : Option ExtractionResult) : RegisterResult :=
  match scraped with
  | none => .error "Unable to scrape product data. Please check the URL."
  | some sd =>
    match sd.price with
    | none => .error "Unable to scrape product data. Please check the URL."
    | some p =>
      if p = 0 then .error "Unable to scrape product data. Please check the URL."
      else .created
        { userId := userId
        , url := url
        , title := sd.title
        , currentPrice := p
        , targetPrice := targetPrice
        , image := sd.image
        , store := sd.store
        , priceHistory := [p]
        , isActive := true
        , createdAt := now
        , lastChecked := now }

/-! ### Helper lemmas -/

theorem sliceLast_eq_rev (n : Nat) (l : List ℚ) :
    sliceLast n l = (l.reverse.take n).reverse :=
  List.rtake_eq_reverse_take_reverse l n

theorem sliceLast_length (n : Nat) (l : List ℚ) :
    (sliceLast n l).length = l.length - (l.length - n) := by
  rw [sliceLast, List.length_drop]

/-- A later `slice(-n)` absorbs an earlier one. -/
theorem sliceLast_append_absorb (n : Nat) (m ps : List ℚ) :
    sliceLast n (sliceLast n m ++ ps) = sliceLast n (m ++ ps) := by
  simp only [sliceLast_eq_rev]
  rw [List.reverse_append, List.reverse_reverse, List.reverse_append]
  congr 1
  rw [List.take_append_eq_append_take, List.take_append_eq_append_take,
    List.take_take]
  congr 1
  exact congrArg (fun k => List.take k m.reverse)
    (Nat.min_eq_left (Nat.sub_le n ps.reverse.length))

/-- The capped push of lines 418-423 is exactly `slice(-30)` of the
uncapped push. -/
theorem appendCapped_eq_sliceLast (h : List ℚ) (p : ℚ) :
    appendCapped h p = sliceLast 30 (h ++ [p]) := by
  rw [appendCapped, sliceLast]
  split
  · rfl
  · next hle =>
    have h0 : (h ++ [p]).length - 30 = 0 := by omega
    rw [h0, List.drop_zero]

theorem appendCapped_length_le (h : List ℚ) (p : ℚ) :
    (appendCapped h p).length ≤ 30 := by
  rw [appendCapped_eq_sliceLast, sliceLast_length]
  omega

/-- Folding capped pushes over a seed of at most 30 entries keeps
exactly the 30 most recent entries of the full observation stream. -/
theorem foldl_appendCapped_eq (ps : List ℚ) (h : List ℚ) (hh : h.length ≤ 30) :
    ps.foldl appendCapped h = sliceLast 30 (h ++ ps) := by
  induction ps generalizing h with
  | nil =>
    rw [List.foldl_nil, List.append_nil, sliceLast]
    have h0 : h.length - 30 = 0 := by omega
    rw [h0, List.drop_zero]
  | cons p ps ih =>
    rw [List.foldl_cons, ih (appendCapped h p) (appendCapped_length_le h p),
      appendCapped_eq_sliceLast, sliceLast_append_absorb]
    congr 1
    simp

/-- Every price `parseFloat` resolves from a stripped string is
non-negative: the stripped alphabet has no sign. -/
theorem parseFloatStripped_nonneg (s : String) (q : ℚ)
    (hq : parseFloatStripped s = some q) : 0 ≤ q := by
  rw [parseFloatStripped] at hq
  cases hp : parseParts s with
  | none => rw [hp] at hq; simp at hq
  | some parts =>
    rw [hp] at hq
    simp only [Option.map_some', Option.some.injEq] at hq
    obtain ⟨i, f, k⟩ := parts
    rw [← hq, ratOfParts]
    positivity

/-- The line-428 condition, for a positive observation price, is
exactly the spec's rule: target set, observation at or below target,
observation strictly below the previous price.  (For a positive
observation price the JS falsiness of a target of `0` cannot change
the outcome, since the observation can never be at or below `0`.) -/
theorem shouldNotify_iff (target : Option ℚ) (newPrice oldPrice : ℚ)
    (hpos : 0 < newPrice) :
    shouldNotifyCode target newPrice oldPrice = true ↔
      ∃ t, target = some t ∧ newPrice ≤ t ∧ newPrice < oldPrice := by
  cases target with
  | none =>
    simp [shouldNotifyCode]
  | some t =>
    simp only [shouldNotifyCode, Bool.and_eq_true, bne_iff_ne, ne_eq,
      decide_eq_true_eq]
    constructor
    · rintro ⟨⟨-, h1⟩, h2⟩
      exact ⟨t, rfl, h1, h2⟩
    · rintro ⟨t2, ht2, h1, h2⟩
      cases ht2
      exact ⟨⟨(lt_of_lt_of_le hpos h1).ne', h1⟩, h2⟩

/-- Unfolding `checkItem` on the success path: scrape completed, price
truthy, save does not throw. -/
theorem checkItem_ok (now : Nat) (env : ItemEnv) (product : TrackedItem)
    (sd : ExtractionResult) (p : ℚ)
    (h1 : env.scraped = some sd) (h2 : sd.price = some p) (h3 : p ≠ 0)
    (h4 : env.saveThrows = false) :
    checkItem now env product =
      ⟨{ product with
          currentPrice := p
          , lastChecked := now
          , priceHistory := appendCapped product.priceHistory p }
      , shouldNotifyCode product.targetPrice p product.currentPrice
      , shouldNotifyCode product.targetPrice p product.currentPrice &&
          (match env.user with
            | none => false
            | some u => u.notifications && env.sendOk)
      , true⟩ := by
  simp only [checkItem, h1, h2, h4]
  rw [if_neg h3, if_neg Bool.false_ne_true]

/-- Unfolding `checkItem` on a fetch or extraction failure: the falsy
scrape result skips the whole update block, and the pacing delay still
runs. -/
theorem checkItem_fail (now : Nat) (env : ItemEnv) (product : TrackedItem)
    (h : env.scraped = none ∨ env.scraped.bind ExtractionResult.price = none ∨
      env.scraped.bind ExtractionResult.price = some 0) :
    checkItem now env product = ⟨product, false, false, true⟩ := by
  cases hs : env.scraped with
  | none => simp only [checkItem, hs]
  | some sd =>
    rw [hs] at h
    simp only [Option.some_bind, reduceCtorEq, false_or] at h
    cases hp : sd.price with
    | none => simp only [checkItem, hs, hp]
    | some p =>
      rw [hp] at h
      rcases h with h | h
      · exact absurd h (by simp)
      · simp only [checkItem, hs, hp, if_pos (Option.some.inj h)]

/-- Unfolding `checkItem` when `product.save()` throws: nothing is
persisted and the pacing delay is skipped. -/
theorem checkItem_throw (now : Nat) (env : ItemEnv) (product : TrackedItem)
    (sd : ExtractionResult) (p : ℚ)
    (h1 : env.scraped = some sd) (h2 : sd.price = some p) (h3 : p ≠ 0)
    (h4 : env.saveThrows = true) :
    checkItem now env product = ⟨product, false, false, false⟩ := by
  simp only [checkItem, h1, h2]
  rw [if_neg h3, if_pos h4]


/-- In every branch of the loop body that does not throw, the line-439
pacing delay runs (a falsy scrape result merely skips the update
block). -/
theorem checkItem_delayed (now : Nat) (env : ItemEnv) (product : TrackedItem)
    (h : env.saveThrows = false) :
    (checkItem now env product).delayed = true := by
  cases hs : env.scraped with
  | none => simp [checkItem, hs]
  | some sd =>
    cases hp : sd.price with
    | none => simp [checkItem, hs, hp]
    | some p =>
      by_cases hp0 : p = 0
      · simp [checkItem, hs, hp, hp0]
      · simp [checkItem, hs, hp, hp0, h]

/-! ### Concrete fixtures used by witnesses and counterexamples -/

/-- A scrape result carrying the given price field. -/
def sampleRes (p : Option ℚ) : ExtractionResult :=
  ⟨p, "Sample", "", "Amazon"⟩

/-- A per-item sweep environment: completed fetch with the given price
field, no persistence fault, no user record, working transport. -/
def sampleEnv (p : Option ℚ) : ItemEnv :=
  ⟨some (sampleRes p), false, none, true⟩

/-- A tracked item with the given current price, target and history. -/
def sampleItem (cur : ℚ) (target : Option ℚ) (hist : List ℚ) : TrackedItem :=
  ⟨1, "https://www.amazon.com/dp/x", "Sample", cur, target, "", "Amazon",
    hist, true, 0, 0⟩

/-! ### Claims -/

/-- C1: during a sweep, for an active item whose extraction succeeded
with a (positive) price and whose save does not throw, the notifier is
invoked if and only if the item's target price is set, the observed
price is at or below the target, and the observed price is strictly
below the item's previous current price; in particular no notification
fires when the price is unchanged or above the target. -/
theorem claim_C1_notification_rule (now : Nat) (env : ItemEnv)
    (product : TrackedItem) (sd : ExtractionResult) (p : ℚ)
    (hactive : product.isActive = true)
    (h1 : env.scraped = some sd) (h2 : sd.price = some p) (hpos : 0 < p)
    (h4 : env.saveThrows = false) :
    (checkItem now env product).notifyFired = true ↔
      ∃ t, product.targetPrice = some t ∧ p ≤ t ∧ p < product.currentPrice := by
  rw [checkItem_ok now env product sd p h1 h2 (ne_of_gt hpos) h4]
  exact shouldNotify_iff product.targetPrice p product.currentPrice hpos

/-- C1 witness: old price 100, target 90, new price 85 fires the
notifier. -/
theorem claim_C1_notification_rule_witness :
    (checkItem 5 ⟨some (sampleRes (some 85)), false, some ⟨"a@b.c", true⟩, true⟩
      (sampleItem 100 (some 90) [100])).notifyFired = true :=
  (claim_C1_notification_rule 5 _ _ (sampleRes (some 85)) 85 rfl rfl rfl
    (by norm_num) rfl).mpr ⟨90, rfl, by norm_num, by norm_num [sampleItem]⟩

/-- C2: a history seeded with the registration observation and updated
by the capped push of each successful sweep always equals the 30 most
recent observations of the full stream in time order; hence its length
is always between 1 and 30, and beyond 30 observations the oldest are
evicted first. -/
theorem claim_C2_history_bounds (p0 : ℚ) (ps : List ℚ) :
    ps.foldl appendCapped [p0] = sliceLast 30 (p0 :: ps) ∧
    1 ≤ (ps.foldl appendCapped [p0]).length ∧
    (ps.foldl appendCapped [p0]).length ≤ 30 := by
  have h : ps.foldl appendCapped [p0] = sliceLast 30 (p0 :: ps) :=
    foldl_appendCapped_eq ps [p0] (by simp)
  refine ⟨h, ?_, ?_⟩
  · rw [h, sliceLast_length]
    simp only [List.length_cons]
    omega
  · rw [h, sliceLast_length]
    omega

/-- C3: a fetch or extraction failure leaves the item untouched (and the
sweep moves on), and in a three-item sweep whose second fetch fails the
first and third items are still updated. -/
theorem claim_C3_per_item_isolation :
    (∀ (now : Nat) (env : ItemEnv) (product : TrackedItem),
      env.scraped = none ∨ env.scraped.bind ExtractionResult.price = none →
      checkItem now env product = ⟨product, false, false, true⟩) ∧
    (∀ (now : Nat) (e1 e2 e3 : ItemEnv) (p1 p2 p3 : TrackedItem)
      (sd1 sd3 : ExtractionResult) (q1 q3 : ℚ),
      e1.scraped = some sd1 → sd1.price = some q1 → q1 ≠ 0 →
      e1.saveThrows = false →
      e3.scraped = some sd3 → sd3.price = some q3 → q3 ≠ 0 →
      e3.saveThrows = false →
      e2.scraped = none →
      runSweep now [e1, e2, e3] [p1, p2, p3] =
        [checkItem now e1 p1, ⟨p2, false, false, true⟩, checkItem now e3 p3] ∧
      (checkItem now e1 p1).item.currentPrice = q1 ∧
      (checkItem now e1 p1).item.lastChecked = now ∧
      (checkItem now e1 p1).item.priceHistory = appendCapped p1.priceHistory q1 ∧
      (checkItem now e3 p3).item.currentPrice = q3 ∧
      (checkItem now e3 p3).item.lastChecked = now ∧
      (checkItem now e3 p3).item.priceHistory = appendCapped p3.priceHistory q3) := by
  constructor
  · intro now env product h
    exact checkItem_fail now env product (h.elim Or.inl (fun b => Or.inr (Or.inl b)))
  · intro now e1 e2 e3 p1 p2 p3 sd1 sd3 q1 q3 ha1 ha2 ha3 ha4 hb1 hb2 hb3 hb4 h2
    refine ⟨?_, ?_, ?_, ?_, ?_, ?_, ?_⟩
    · rw [runSweep]
      simp only [List.zipWith]
      rw [checkItem_fail now e2 p2 (Or.inl h2)]
    · rw [checkItem_ok now e1 p1 sd1 q1 ha1 ha2 ha3 ha4]
    · rw [checkItem_ok now e1 p1 sd1 q1 ha1 ha2 ha3 ha4]
    · rw [checkItem_ok now e1 p1 sd1 q1 ha1 ha2 ha3 ha4]
    · rw [checkItem_ok now e3 p3 sd3 q3 hb1 hb2 hb3 hb4]
    · rw [checkItem_ok now e3 p3 sd3 q3 hb1 hb2 hb3 hb4]
    · rw [checkItem_ok now e3 p3 sd3 q3 hb1 hb2 hb3 hb4]

/-- C3 witness: the three-item scenario at concrete values. -/
theorem claim_C3_per_item_isolation_witness :
    runSweep 9 [sampleEnv (some 40), ⟨none, false, none, true⟩, sampleEnv (some 60)]
        [sampleItem 50 none [50], sampleItem 70 none [70], sampleItem 80 none [80]] =
      [checkItem 9 (sampleEnv (some 40)) (sampleItem 50 none [50]),
       ⟨sampleItem 70 none [70], false, false, true⟩,
       checkItem 9 (sampleEnv (some 60)) (sampleItem 80 none [80])] ∧
    (checkItem 9 (sampleEnv (some 40)) (sampleItem 50 none [50])).item.currentPrice = 40 ∧
    (checkItem 9 (sampleEnv (some 40)) (sampleItem 50 none [50])).item.lastChecked = 9 ∧
    (checkItem 9 (sampleEnv (some 40)) (sampleItem 50 none [50])).item.priceHistory =
      appendCapped (sampleItem 50 none [50]).priceHistory 40 ∧
    (checkItem 9 (sampleEnv (some 60)) (sampleItem 80 none [80])).item.currentPrice = 60 ∧
    (checkItem 9 (sampleEnv (some 60)) (sampleItem 80 none [80])).item.lastChecked = 9 ∧
    (checkItem 9 (sampleEnv (some 60)) (sampleItem 80 none [80])).item.priceHistory =
      appendCapped (sampleItem 80 none [80]).priceHistory 60 :=
  claim_C3_per_item_isolation.2 9 (sampleEnv (some 40)) ⟨none, false, none, true⟩
    (sampleEnv (some 60)) (sampleItem 50 none [50]) (sampleItem 70 none [70])
    (sampleItem 80 none [80]) (sampleRes (some 40)) (sampleRes (some 60)) 40 60
    rfl rfl (by norm_num) rfl rfl rfl (by norm_num) rfl rfl

/-- C5 as stated is refuted: an extracted price equal to 0 is NOT
persisted — at a concrete item with a scraped price of 0 the record is
left completely unchanged and nothing is appended to the history. -/
theorem claim_C5_counterexample :
    checkItem 7 (sampleEnv (some 0)) (sampleItem 50 none [50]) =
      ⟨sampleItem 50 none [50], false, false, true⟩ := by
  decide

/-- C5 amended: a scrape result whose price is null is never persisted;
in addition, a scraped price of 0 is treated exactly like an extraction
failure (the truthiness guard of line 411), so it too is never
persisted and never updates the item. -/
theorem claim_C5_null_or_zero_not_persisted (now : Nat) (env : ItemEnv)
    (product : TrackedItem) (sd : ExtractionResult)
    (h1 : env.scraped = some sd) (h2 : sd.price = none ∨ sd.price = some 0) :
    checkItem now env product = ⟨product, false, false, true⟩ := by
  apply checkItem_fail
  rcases h2 with h | h
  · exact Or.inr (Or.inl (by rw [h1, Option.some_bind, h]))
  · exact Or.inr (Or.inr (by rw [h1, Option.some_bind, h]))

/-- C5 amended, witness: a null price at a concrete item. -/
theorem claim_C5_null_or_zero_not_persisted_witness :
    checkItem 3 (sampleEnv none) (sampleItem 50 none [50]) =
      ⟨sampleItem 50 none [50], false, false, true⟩ :=
  claim_C5_null_or_zero_not_persisted 3 (sampleEnv none) (sampleItem 50 none [50])
    (sampleRes none) rfl (Or.inl rfl)

/-- C7: numeric normalization keeps only digits and the decimal point,
so a currency-and-separator form and its digit-only form parse to the
same value (1299.99), and every price resolved from a normalized string
is non-negative. -/
theorem claim_C7_normalization :
    (∀ (s : String) (q : ℚ),
      parseFloatStripped (normalizePriceText s) = some q → 0 ≤ q) ∧
    parseFloatStripped (normalizePriceText "$1,299.99") = some (1299.99 : ℚ) ∧
    parseFloatStripped (normalizePriceText "1299.99") = some (1299.99 : ℚ) := by
  refine ⟨fun s q hq => parseFloatStripped_nonneg _ q hq, ?_, ?_⟩
  · have h : parseParts (normalizePriceText "$1,299.99") = some (1299, 99, 2) := by
      decide
    rw [parseFloatStripped, h]
    simp only [Option.map_some', Option.some.injEq, ratOfParts]
    norm_num
  · have h : parseParts (normalizePriceText "1299.99") = some (1299, 99, 2) := by
      decide
    rw [parseFloatStripped, h]
    simp only [Option.map_some', Option.some.injEq, ratOfParts]
    norm_num

/-- C7 witness: the non-negativity conjunct applied at the concrete
normalized price. -/
theorem claim_C7_normalization_witness : (0 : ℚ) ≤ 1299.99 :=
  claim_C7_normalization.1 "$1,299.99" 1299.99 claim_C7_normalization.2.1


/-- C4 as stated is refuted at old price 0: the message does not omit
the percentage — the template of line 192 interpolates the percentage
expression unconditionally, with no guard on `old == 0`. -/
theorem claim_C4_counterexample :
    (buildMailBody "Prod" 0 5).percentOff.isSome = true := by
  simp [buildMailBody]

/-- C4 amended: for a positive old price the savings percentage in the
message equals round((old - new) / old x 100) (e.g. 100 -> 75 gives
25), and the savings amount equals old - new; there is however no
`old == 0` guard — the percentage is interpolated unconditionally
(in JS it renders as an infinity without any thrown error; old = 0 is
unreachable from the sweep, which only persists nonzero prices). -/
theorem claim_C4_savings_percent (title : String) (oldPrice newPrice : ℚ)
    (h : 0 < oldPrice) :
    (buildMailBody title oldPrice newPrice).percentOff =
      some (round ((oldPrice - newPrice) / oldPrice * 100)) ∧
    (buildMailBody title oldPrice newPrice).savings = oldPrice - newPrice := by
  constructor
  · exact congrArg some ((round_eq ((oldPrice - newPrice) / oldPrice * 100)).symm)
  · rfl

/-- C4 witness: old = 100, new = 75 gives savings 25.00 and percent
25. -/
theorem claim_C4_savings_percent_witness :
    (buildMailBody "Prod" 100 75).percentOff = some 25 ∧
    (buildMailBody "Prod" 100 75).savings = 25 := by
  have h := claim_C4_savings_percent "Prod" 100 75 (by norm_num)
  refine ⟨h.1.trans ?_, h.2.trans (by norm_num)⟩
  rw [round_eq]
  norm_num [Int.floor_eq_iff]

/-- C6: registration makes one extraction attempt; an unrecognized
store URL (and, in general, a falsy scrape result or falsy price)
yields the descriptive 400 error with no record created, and every
created record carries the extracted price as its current price and as
its single seeded history observation. -/
theorem claim_C6_registration (userId : Nat) (url : String)
    (targetPrice : Option ℚ) (now : Nat) :
    (∀ (doc : SelectorTexts) (fetchOk : Bool), classifyStore url = none →
      registerItem userId url targetPrice now (scrapePriceModel url doc fetchOk) =
        .error "Unable to scrape product data. Please check the URL.") ∧
    (∀ scraped : Option ExtractionResult,
      scraped = none ∨ scraped.bind ExtractionResult.price = none →
      registerItem userId url targetPrice now scraped =
        .error "Unable to scrape product data. Please check the URL.") ∧
    (∀ (scraped : Option ExtractionResult) (item : TrackedItem),
      registerItem userId url targetPrice now scraped = .created item →
      ∃ sd p, scraped = some sd ∧ sd.price = some p ∧
        item.currentPrice = p ∧ item.priceHistory = [p]) := by
  refine ⟨?_, ?_, ?_⟩
  · intro doc fetchOk hcl
    cases fetchOk with
    | false => rfl
    | true => simp [scrapePriceModel, hcl, registerItem]
  · intro scraped h
    cases scraped with
    | none => rfl
    | some sd =>
      rcases h with h | h
      · exact absurd h (by simp)
      · rw [Option.some_bind] at h
        simp [registerItem, h]
  · intro scraped item h
    cases scraped with
    | none => exact absurd h (by rw [registerItem]; exact fun hc => by cases hc)
    | some sd =>
      cases hp : sd.price with
      | none =>
        rw [registerItem, hp] at h
        cases h
      | some p =>
        simp only [registerItem, hp] at h
        by_cases hp0 : p = 0
        · rw [if_pos hp0] at h; cases h
        · rw [if_neg hp0] at h
          cases h
          exact ⟨sd, p, rfl, hp, rfl, rfl⟩

/-- C6 witness: an unrecognized-store URL is rejected with the
descriptive error. -/
theorem claim_C6_registration_witness :
    registerItem 1 "https://example.com/item" none 0
        (scrapePriceModel "https://example.com/item" ⟨"", "", "", ""⟩ true) =
      .error "Unable to scrape product data. Please check the URL." :=
  (claim_C6_registration 1 "https://example.com/item" none 0).1
    ⟨"", "", "", ""⟩ true (by decide)

/-- C8 as stated is refuted: in a two-item sweep where both saves
throw, no pacing delay at all runs (0 < N - 1 = 1) — the delay of line
439 sits inside the per-item `try`, so a thrown save skips it. -/
theorem claim_C8_counterexample :
    (runSweep 1
      [⟨some (sampleRes (some 5)), true, none, true⟩,
       ⟨some (sampleRes (some 6)), true, none, true⟩]
      [sampleItem 10 none [10], sampleItem 11 none [11]]).map
        ItemResult.delayed = [false, false] := by
  decide

/-- C8 amended: the pacing delay runs after every item whose iteration
does not throw; fetch and extraction failures do not throw (they are
recovered inside `scrapePrice`), so they still delay, and a sweep of N
items with no thrown save performs N delays (hence at least N - 1);
only a thrown per-item error (e.g. a failing save) skips that item's
delay. -/
theorem claim_C8_pacing (now : Nat) (envs : List ItemEnv)
    (products : List TrackedItem)
    (hlen : envs.length = products.length)
    (hnothrow : ∀ e ∈ envs, e.saveThrows = false) :
    (runSweep now envs products).length = products.length ∧
    ∀ r ∈ runSweep now envs products, r.delayed = true := by
  constructor
  · rw [runSweep, List.length_zipWith, hlen, Nat.min_self]
  · induction envs generalizing products with
    | nil => intro r hr; simp [runSweep] at hr
    | cons e es ih =>
      cases products with
      | nil => intro r hr; simp [runSweep] at hr
      | cons p ps =>
        intro r hr
        rw [runSweep, List.zipWith_cons_cons] at hr
        rcases List.mem_cons.mp hr with rfl | hr
        · exact checkItem_delayed now e p (hnothrow e (List.mem_cons_self e es))
        · exact ih ps (by simpa using hlen)
            (fun e2 he2 => hnothrow e2 (List.mem_cons_of_mem e he2)) r hr

/-- C8 amended, witness: a two-item sweep with a fetch failure on the
first item still delays after both items. -/
theorem claim_C8_pacing_witness :
    (runSweep 1 [⟨none, false, none, true⟩, sampleEnv (some 6)]
        [sampleItem 10 none [10], sampleItem 11 none [11]]).length =
      [sampleItem 10 none [10], sampleItem 11 none [11]].length ∧
    ∀ r ∈ runSweep 1 [⟨none, false, none, true⟩, sampleEnv (some 6)]
        [sampleItem 10 none [10], sampleItem 11 none [11]], r.delayed = true :=
  claim_C8_pacing 1 [⟨none, false, none, true⟩, sampleEnv (some 6)]
    [sampleItem 10 none [10], sampleItem 11 none [11]] rfl (by decide)

/-- C9: a notification-delivery failure never undoes or blocks the
accompanying price update — with a qualifying drop and a failing
transport, the new price, the new last-checked timestamp and the
appended history observation are all persisted, and the sweep proceeds
(the pacing delay still runs). -/
theorem claim_C9_update_survives_failed_delivery (now : Nat) (env : ItemEnv)
    (product : TrackedItem) (sd : ExtractionResult) (p : ℚ)
    (h1 : env.scraped = some sd) (h2 : sd.price = some p) (h3 : p ≠ 0)
    (h4 : env.saveThrows = false)
    (hq : shouldNotifyCode product.targetPrice p product.currentPrice = true)
    (hfail : env.sendOk = false) :
    (checkItem now env product).item.currentPrice = p ∧
    (checkItem now env product).item.lastChecked = now ∧
    (checkItem now env product).item.priceHistory =
      appendCapped product.priceHistory p ∧
    (checkItem now env product).delayed = true := by
  rw [checkItem_ok now env product sd p h1 h2 h3 h4]
  exact ⟨rfl, rfl, rfl, rfl⟩

/-- C9 witness: qualifying drop 100 -> 85 under target 90 with a
failing transport still persists the update. -/
theorem claim_C9_update_survives_failed_delivery_witness :
    (checkItem 5 ⟨some (sampleRes (some 85)), false, some ⟨"a@b.c", true⟩, false⟩
      (sampleItem 100 (some 90) [100])).item.currentPrice = 85 ∧
    (checkItem 5 ⟨some (sampleRes (some 85)), false, some ⟨"a@b.c", true⟩, false⟩
      (sampleItem 100 (some 90) [100])).item.lastChecked = 5 ∧
    (checkItem 5 ⟨some (sampleRes (some 85)), false, some ⟨"a@b.c", true⟩, false⟩
      (sampleItem 100 (some 90) [100])).item.priceHistory =
      appendCapped (sampleItem 100 (some 90) [100]).priceHistory 85 ∧
    (checkItem 5 ⟨some (sampleRes (some 85)), false, some ⟨"a@b.c", true⟩, false⟩
      (sampleItem 100 (some 90) [100])).delayed = true :=
  claim_C9_update_survives_failed_delivery 5 _ _ (sampleRes (some 85)) 85
    rfl rfl (by norm_num) rfl (by decide) rfl

/-- C10: on a qualifying drop, a missing user record or a user whose
notifications preference is off suppresses the email, while the item's
persisted update is identical to the notified case. -/
theorem claim_C10_preference_suppresses_email (now : Nat) (env : ItemEnv)
    (product : TrackedItem) (sd : ExtractionResult) (p : ℚ)
    (h1 : env.scraped = some sd) (h2 : sd.price = some p) (h3 : p ≠ 0)
    (h4 : env.saveThrows = false)
    (hq : shouldNotifyCode product.targetPrice p product.currentPrice = true)
    (huser : env.user = none ∨ ∃ u, env.user = some u ∧ u.notifications = false) :
    (checkItem now env product).emailSent = false ∧
    ∀ (u2 : User) (ok2 : Bool),
      (checkItem now env product).item =
        (checkItem now { env with user := some u2, sendOk := ok2 } product).item := by
  have hmain := checkItem_ok now env product sd p h1 h2 h3 h4
  constructor
  · rcases huser with h | ⟨u, hu, hn⟩
    · simp [hmain, h]
    · simp [hmain, hu, hn]
  · intro u2 ok2
    rw [hmain,
      checkItem_ok now { env with user := some u2, sendOk := ok2 } product sd p
        h1 h2 h3 h4]

/-- C10 witness: a user with notifications off gets no email, yet the
persisted record matches the notified case exactly. -/
theorem claim_C10_preference_suppresses_email_witness :
    (checkItem 5 ⟨some (sampleRes (some 85)), false, some ⟨"a@b.c", false⟩, true⟩
      (sampleItem 100 (some 90) [100])).emailSent = false ∧
    (checkItem 5 ⟨some (sampleRes (some 85)), false, some ⟨"a@b.c", false⟩, true⟩
      (sampleItem 100 (some 90) [100])).item =
      (checkItem 5 { (⟨some (sampleRes (some 85)), false, some ⟨"a@b.c", false⟩, true⟩ : ItemEnv) with
          user := some ⟨"x@y.z", true⟩, sendOk := true }
        (sampleItem 100 (some 90) [100])).item := by
  have h := claim_C10_preference_suppresses_email 5
    ⟨some (sampleRes (some 85)), false, some ⟨"a@b.c", false⟩, true⟩
    (sampleItem 100 (some 90) [100]) (sampleRes (some 85)) 85
    rfl rfl (by norm_num) rfl (by decide)
    (Or.inr ⟨⟨"a@b.c", false⟩, rfl, rfl⟩)
  exact ⟨h.1, h.2 ⟨"x@y.z", true⟩ true⟩

end PriceTracker
